import Mathlib

/-!
Shallow embedding of the resilient client + service-discovery core of the
`triton-rust` repository, together with theorems settling the frozen claims
about it.

Conventions of the embedding:
* Rust `std::time::Duration` values are modelled as `Nat` nanoseconds;
  `Duration::from_millis ms` is `ms * 1000000` and `as_millis` is integer
  division by `1000000` (exact, since `as_millis` returns `u128`).
* Rust machine integers are modelled as `Nat` with explicit `% 2 ^ w`
  wherever the source can overflow.  Unchecked arithmetic is given the
  release-profile (wrapping) semantics.
* `Instant` values are `Nat` time stamps; `Instant::elapsed` at time `now`
  is truncated subtraction `now - t`.
* Fallible Rust functions return `Except Error α`; network interactions are
  oracles (`Nat → ...`) indexed by the attempt number, and the embedding of
  each stateful operation returns the mutated state explicitly together with
  the number of directory queries it issued.
-/

namespace Triton

/-- `u32::MAX`, the saturation bound of `u32::saturating_pow`. -/
def U32_MAX : Nat := 2 ^ 32 - 1

/-- Wrap-around modulus of `u64` arithmetic. -/
def U64_MOD : Nat := 2 ^ 64

/-- `Duration::from_millis`, in the nanosecond model. -/
def durFromMillis (ms : Nat) : Nat := ms * 1000000

/-- `Duration::as_millis`, in the nanosecond model. -/
def durAsMillis (d : Nat) : Nat := d / 1000000

/-- `u32::saturating_pow base exp`: the true power clamped to `u32::MAX`. -/
def satPow (base exp : Nat) : Nat := min (base ^ exp) U32_MAX

/-- `triton_core::client::RetryPolicy` (src/crates/triton-core/src/client.rs).
`max_retries` and `backoff_multiplier` are `u32`, the delays are `Duration`s
(here: nanoseconds). -/
structure RetryPolicy where
  max_retries : Nat
  initial_delay : Nat
  max_delay : Nat
  backoff_multiplier : Nat
  deriving Repr, DecidableEq

/-- `RetryPolicy::new()`: 3 retries, 500 ms initial delay, 5000 ms cap,
multiplier 2. -/
def RetryPolicy.new : RetryPolicy :=
  { max_retries := 3
    initial_delay := durFromMillis 500
    max_delay := durFromMillis 5000
    backoff_multiplier := 2 }

/-- `RetryPolicy::delay_for_attempt`.  The source computes
`multiplier = backoff_multiplier.saturating_pow(attempt - 1)`, then
`delay_ms = initial_delay.as_millis() as u64 * u64::from(multiplier)` —
a `u128 → u64` truncating cast followed by an unchecked `u64`
multiplication, which wraps modulo `2 ^ 64` in release builds — and finally
`min(Duration::from_millis(delay_ms), max_delay)`. -/
def RetryPolicy.delayForAttempt (p : RetryPolicy) (attempt : Nat) : Nat :=
  if attempt = 0 then 0
  else
    min (durFromMillis ((durAsMillis p.initial_delay % U64_MOD) *
      satPow p.backoff_multiplier (attempt - 1) % U64_MOD)) p.max_delay

/-- `RetryPolicy::has_retries`. -/
def RetryPolicy.hasRetries (p : RetryPolicy) : Bool := p.max_retries > 0

/-- The delay formula exactly as the specification words it:
`delay_for_attempt(0) = 0` and, for `attempt ≥ 1`,
`min(initial_delay * multiplier^(attempt-1), max_delay)` — exact duration
arithmetic, no truncation and no wrap-around. -/
def specDelayForAttempt (p : RetryPolicy) (attempt : Nat) : Nat :=
  if attempt = 0 then 0
  else min (p.initial_delay * p.backoff_multiplier ^ (attempt - 1)) p.max_delay

/-- The specification formula read with saturating exponentiation, the other
possible reading of the claim. -/
def specDelayForAttemptSat (p : RetryPolicy) (attempt : Nat) : Nat :=
  if attempt = 0 then 0
  else min (p.initial_delay * satPow p.backoff_multiplier (attempt - 1)) p.max_delay

/-- A policy whose initial delay makes the 64-bit millisecond product wrap:
`initial_delay = 2^63 ms`, multiplier 2, cap 5000 ms. -/
def overflowPolicy : RetryPolicy :=
  { max_retries := 3
    initial_delay := durFromMillis (2 ^ 63)
    max_delay := durFromMillis 5000
    backoff_multiplier := 2 }

/-- A policy with `backoff_multiplier = 0`: `0^0 = 1` makes the first delay
positive, every later delay zero. -/
def zeroMultPolicy : RetryPolicy :=
  { max_retries := 3
    initial_delay := durFromMillis 500
    max_delay := durFromMillis 5000
    backoff_multiplier := 0 }

/-- C1: the claim asserts `delay_for_attempt(attempt) =
min(initial_delay * multiplier^(attempt-1), max_delay)` with no wrap-around,
for ALL field values.  Refuted: with `initial_delay = 2^63 ms` and
multiplier 2, the unchecked `u64` millisecond product wraps to 0 at
attempt 2, so the code returns a zero delay while every reading of the
claimed formula (exact or saturating exponentiation) gives the 5000 ms cap. -/
theorem C1_counterexample :
    RetryPolicy.delayForAttempt overflowPolicy 2 = 0 ∧
    specDelayForAttempt overflowPolicy 2 = durFromMillis 5000 ∧
    specDelayForAttemptSat overflowPolicy 2 = durFromMillis 5000 ∧
    durFromMillis 5000 ≠ 0 := by
  refine ⟨by decide, by decide, by decide, by decide⟩

/-- C1 (amended): `delay_for_attempt(0) = 0` always; for `attempt ≥ 1` the
exponentiation saturates at `u32::MAX` and the millisecond product is a
wrapping 64-bit multiplication, so WHEN `initial_delay`'s milliseconds and
the product `initial_delay_ms * sat_pow` fit in `u64`, the delay equals
`min(initial_delay_ms * min(multiplier^(attempt-1), u32::MAX), max_delay)`
(milliseconds, sub-millisecond precision of `initial_delay` truncated). -/
theorem C1_delay_formula (p : RetryPolicy) (attempt : Nat)
    (h2 : durAsMillis p.initial_delay < U64_MOD)
    (h3 : durAsMillis p.initial_delay * satPow p.backoff_multiplier (attempt - 1) < U64_MOD) :
    RetryPolicy.delayForAttempt p 0 = 0 ∧
    (1 ≤ attempt →
      RetryPolicy.delayForAttempt p attempt =
        min (durFromMillis (durAsMillis p.initial_delay *
          satPow p.backoff_multiplier (attempt - 1))) p.max_delay) := by
  constructor
  · simp [RetryPolicy.delayForAttempt]
  · intro h1
    unfold RetryPolicy.delayForAttempt
    rw [if_neg (by omega), Nat.mod_eq_of_lt h2, Nat.mod_eq_of_lt h3]

/-- Witness for C1 (amended) at the default policy, attempt 2. -/
theorem C1_delay_formula_witness :
    (durAsMillis RetryPolicy.new.initial_delay < U64_MOD ∧
      durAsMillis RetryPolicy.new.initial_delay *
        satPow RetryPolicy.new.backoff_multiplier (2 - 1) < U64_MOD) ∧
    (RetryPolicy.delayForAttempt RetryPolicy.new 0 = 0 ∧
      (1 ≤ 2 →
        RetryPolicy.delayForAttempt RetryPolicy.new 2 =
          min (durFromMillis (durAsMillis RetryPolicy.new.initial_delay *
            satPow RetryPolicy.new.backoff_multiplier (2 - 1)))
            RetryPolicy.new.max_delay)) :=
  ⟨⟨by decide, by decide⟩, C1_delay_formula RetryPolicy.new 2 (by decide) (by decide)⟩

/-- C2: the claim asserts `delay_for_attempt(n) ≤ delay_for_attempt(n+1)`
for EVERY `RetryPolicy` and `n ≥ 1`.  Refuted at
`backoff_multiplier = 0`: `0^0 = 1` gives `delay(1) = initial_delay`
(500 ms here) while `0^1 = 0` gives `delay(2) = 0`. -/
theorem C2_counterexample :
    ¬ RetryPolicy.delayForAttempt zeroMultPolicy 1 ≤
        RetryPolicy.delayForAttempt zeroMultPolicy 2 := by
  decide

/-- C2 (amended): for `n ≥ 1`, `delay_for_attempt(n+1) ≤ max_delay` holds
for every policy; the delay is monotone from `n` to `n+1` provided
`backoff_multiplier ≥ 1` and the 64-bit millisecond product at attempt
`n+1` does not wrap. -/
theorem C2_delay_monotone (p : RetryPolicy) (n : Nat) (hn : 1 ≤ n) :
    RetryPolicy.delayForAttempt p (n + 1) ≤ p.max_delay ∧
    (1 ≤ p.backoff_multiplier →
      (durAsMillis p.initial_delay % U64_MOD) * satPow p.backoff_multiplier n < U64_MOD →
      RetryPolicy.delayForAttempt p n ≤ RetryPolicy.delayForAttempt p (n + 1)) := by
  constructor
  · unfold RetryPolicy.delayForAttempt
    rw [if_neg (by omega)]
    exact Nat.min_le_right _ _
  · intro hm hov
    unfold RetryPolicy.delayForAttempt
    rw [if_neg (by omega), if_neg (by omega)]
    simp only [Nat.add_sub_cancel]
    have hmono : satPow p.backoff_multiplier (n - 1) ≤ satPow p.backoff_multiplier n :=
      min_le_min (Nat.pow_le_pow_right hm (by omega)) le_rfl
    have h1 : (durAsMillis p.initial_delay % U64_MOD) *
        satPow p.backoff_multiplier (n - 1) < U64_MOD :=
      lt_of_le_of_lt (Nat.mul_le_mul_left _ hmono) hov
    rw [Nat.mod_eq_of_lt h1, Nat.mod_eq_of_lt hov]
    refine min_le_min ?_ le_rfl
    simp only [durFromMillis]
    exact Nat.mul_le_mul_right _ (Nat.mul_le_mul_left _ hmono)

/-- Witness for C2 (amended) at the default policy, `n = 1`. -/
theorem C2_delay_monotone_witness :
    (1 ≤ (1 : Nat)) ∧
    (RetryPolicy.delayForAttempt RetryPolicy.new 2 ≤ RetryPolicy.new.max_delay ∧
      (1 ≤ RetryPolicy.new.backoff_multiplier →
        (durAsMillis RetryPolicy.new.initial_delay % U64_MOD) *
          satPow RetryPolicy.new.backoff_multiplier 1 < U64_MOD →
        RetryPolicy.delayForAttempt RetryPolicy.new 1 ≤
          RetryPolicy.delayForAttempt RetryPolicy.new 2)) :=
  ⟨by decide, C2_delay_monotone RetryPolicy.new 1 (by decide)⟩

/-- `triton_core::error::Error` (src/crates/triton-core/src/error.rs),
restricted to the variants the modelled core touches. -/
inductive Error where
  | serviceUnavailable (msg : String)
  | discoveryFailed (msg : String)
  | sapiParseError (msg : String)
  | configError (msg : String)
  | httpError (msg : String)
  | timeout (msg : String)
  | notFound (msg : String)
  | invalidRequest (msg : String)
  | badRequest (msg : String)
  | invalidEndpoint (msg : String)
  deriving Repr, DecidableEq

/-- The `thiserror` `Display` rendering of each variant (`Error::to_string`). -/
def Error.render : Error → String
  | .serviceUnavailable m => "Service unavailable: " ++ m
  | .discoveryFailed m => "Service discovery failed: " ++ m
  | .sapiParseError m => "Failed to parse SAPI response: " ++ m
  | .configError m => "Configuration error: " ++ m
  | .httpError m => "HTTP request failed: " ++ m
  | .timeout m => "Timeout waiting for service: " ++ m
  | .notFound m => "Not found: " ++ m
  | .invalidRequest m => "Invalid request: " ++ m
  | .badRequest m => "Bad request: " ++ m
  | .invalidEndpoint m => "Invalid endpoint: " ++ m

/-- The executor's retryable-transport-error test:
`matches!(error, Error::Timeout(_) | Error::ServiceUnavailable(_) |
Error::HttpError(_))`. -/
def Error.isRetryableTransport : Error → Bool
  | .timeout _ => true
  | .serviceUnavailable _ => true
  | .httpError _ => true
  | _ => false

/-- `StatusCode::is_success`: 200..=299. -/
def statusIsSuccess (status : Nat) : Bool := 200 ≤ status && status < 300

/-- `StatusCode::is_server_error`: 500..=599. -/
def statusIsServerError (status : Nat) : Bool := 500 ≤ status && status < 600

/-- `triton_core::client::should_retry`: 429, 502, 503, 504 or any 5xx. -/
def shouldRetry (status : Nat) : Bool :=
  (status = 429 || status = 502 || status = 503 || status = 504) ||
    statusIsServerError status

/-- Outcome of one `request.send().await` together with the body text read
on the non-success path: either a response with its status, or a transport
failure already converted through `Error::from`. -/
inductive SendOutcome where
  | response (status : Nat) (text : String)
  | failure (e : Error)
  deriving Repr, DecidableEq

/-- A successful HTTP response, reduced to its status code. -/
structure Response where
  status : Nat
  deriving Repr, DecidableEq

/-- What one iteration of the `execute_with_retry` loop decides:
return immediately (success or non-retryable error), or record the error
as `last_error` and continue. -/
inductive IterResult where
  | done (r : Except Error Response)
  | retry (e : Error)
  deriving Repr

/-- The retried error of an iteration, if it is a `retry`. -/
def IterResult.retryErr : IterResult → Option Error
  | .retry e => some e
  | .done _ => none

/-- Classification of one attempt, mirroring the match in
`ServiceClient::execute_with_retry`: 2xx returns the response; other
statuses go through `map_error` and retry iff `should_retry`; transport
failures retry iff `Timeout`/`ServiceUnavailable`/`HttpError`. -/
def classifyAttempt (mapError : Nat → String → Error) : SendOutcome → IterResult
  | .response status text =>
      if statusIsSuccess status then .done (.ok ⟨status⟩)
      else
        if shouldRetry status then .retry (mapError status text)
        else .done (.error (mapError status text))
  | .failure e =>
      if e.isRetryableTransport then .retry e else .done (.error e)

/-- The generic error produced when the loop ends with no recorded error:
`Error::ServiceUnavailable("{service} request failed after retries")`. -/
def genericUnavailable (svc : String) : Error :=
  .serviceUnavailable (svc ++ " request failed after retries")

/-- Aggregate outcome of `execute_with_retry`: the returned value, the
number of `send` calls performed, and the backoff sleeps (only the
positive delays, in order). -/
structure ExecResult where
  result : Except Error Response
  sends : Nat
  sleeps : List Nat
  deriving Repr

/-- The `loop` of `ServiceClient::execute_with_retry`, with fuel
`max_retries + 1 - attempt` (the loop breaks once `attempt` exceeds
`max_retries`, so the fuel-0 branch mirrors the post-loop return and is
never reached from `executeWithRetry`).  `build` is the result of
`self.request(...)`, re-evaluated each iteration; `backend i` is what
attempt `i`'s send produced. -/
def execLoop (p : RetryPolicy) (svc : String) (build : Except Error Unit)
    (mapError : Nat → String → Error) (backend : Nat → SendOutcome) :
    Nat → Nat → Option Error → ExecResult
  | 0, _, lastError =>
      { result := .error (lastError.getD (genericUnavailable svc)), sends := 0, sleeps := [] }
  | fuel + 1, attempt, _lastError =>
      match build with
      | .error e => { result := .error e, sends := 0, sleeps := [] }
      | .ok _ =>
        match classifyAttempt mapError (backend attempt) with
        | .done r => { result := r, sends := 1, sleeps := [] }
        | .retry e =>
            if attempt + 1 > p.max_retries then
              { result := .error ((some e).getD (genericUnavailable svc)),
                sends := 1, sleeps := [] }
            else
              let d := p.delayForAttempt (attempt + 1)
              let rest := execLoop p svc build mapError backend fuel (attempt + 1) (some e)
              { result := rest.result, sends := rest.sends + 1,
                sleeps := (if 0 < d then [d] else []) ++ rest.sleeps }

/-- `ServiceClient::execute_with_retry`. -/
def executeWithRetry (p : RetryPolicy) (svc : String) (build : Except Error Unit)
    (mapError : Nat → String → Error) (backend : Nat → SendOutcome) : ExecResult :=
  execLoop p svc build mapError backend (p.max_retries + 1) 0 none

/-- One-step unfolding of `execLoop`, as a rewrite that leaves the
recursive occurrence untouched. -/
theorem execLoop_unfold (p : RetryPolicy) (svc : String) (build : Except Error Unit)
    (mapError : Nat → String → Error) (backend : Nat → SendOutcome)
    (fuel attempt : Nat) (lastError : Option Error) :
    execLoop p svc build mapError backend (fuel + 1) attempt lastError =
      match build with
      | .error e => { result := .error e, sends := 0, sleeps := [] }
      | .ok _ =>
        match classifyAttempt mapError (backend attempt) with
        | .done r => { result := r, sends := 1, sleeps := [] }
        | .retry e =>
            if attempt + 1 > p.max_retries then
              { result := .error ((some e).getD (genericUnavailable svc)),
                sends := 1, sleeps := [] }
            else
              { result :=
                  (execLoop p svc build mapError backend fuel (attempt + 1) (some e)).result,
                sends :=
                  (execLoop p svc build mapError backend fuel (attempt + 1) (some e)).sends + 1,
                sleeps :=
                  (if 0 < p.delayForAttempt (attempt + 1)
                    then [p.delayForAttempt (attempt + 1)] else []) ++
                    (execLoop p svc build mapError backend fuel (attempt + 1) (some e)).sleeps } :=
  rfl

/-- Helper invariant for C3: if every attempt from `attempt` through
`max_retries` classifies as retryable, the loop sends once per remaining
attempt and ends with the error retried at attempt `max_retries`. -/
theorem execLoop_all_retry (p : RetryPolicy) (svc : String)
    (mapError : Nat → String → Error) (backend : Nat → SendOutcome)
    (fuel attempt : Nat) (lastError : Option Error)
    (hfuel : attempt + fuel = p.max_retries)
    (hretry : ∀ i, attempt ≤ i → i ≤ p.max_retries →
      ((classifyAttempt mapError (backend i)).retryErr).isSome) :
    (execLoop p svc (.ok ()) mapError backend (fuel + 1) attempt lastError).sends =
      fuel + 1 ∧
    (execLoop p svc (.ok ()) mapError backend (fuel + 1) attempt lastError).result =
      .error (((classifyAttempt mapError (backend p.max_retries)).retryErr).getD
        (genericUnavailable svc)) := by
  induction fuel generalizing attempt lastError with
  | zero =>
    have hatt : attempt = p.max_retries := by omega
    have hsome := hretry attempt le_rfl (by omega)
    obtain ⟨e, he⟩ : ∃ e, classifyAttempt mapError (backend attempt) = .retry e := by
      cases hc : classifyAttempt mapError (backend attempt) with
      | done r => rw [hc] at hsome; simp [IterResult.retryErr] at hsome
      | retry e => exact ⟨e, rfl⟩
    have hlast : attempt + 1 > p.max_retries := by omega
    subst hatt
    simp [execLoop, he, if_pos hlast, IterResult.retryErr]
  | succ fuel ih =>
    have hle : attempt ≤ p.max_retries := by omega
    have hsome := hretry attempt le_rfl hle
    obtain ⟨e, he⟩ : ∃ e, classifyAttempt mapError (backend attempt) = .retry e := by
      cases hc : classifyAttempt mapError (backend attempt) with
      | done r => rw [hc] at hsome; simp [IterResult.retryErr] at hsome
      | retry e => exact ⟨e, rfl⟩
    have hlast : ¬ attempt + 1 > p.max_retries := by omega
    have hfuel' : (attempt + 1) + fuel = p.max_retries := by omega
    have hretry' : ∀ i, attempt + 1 ≤ i → i ≤ p.max_retries →
        ((classifyAttempt mapError (backend i)).retryErr).isSome := by
      intro i h1 h2
      exact hretry i (by omega) h2
    have hrec := ih (attempt + 1) (some e) hfuel' hretry'
    constructor
    · rw [execLoop_unfold, he]
      dsimp only
      rw [if_neg hlast]
      rw [hrec.1]
    · rw [execLoop_unfold, he]
      dsimp only
      rw [if_neg hlast]
      exact hrec.2

/-- C3: when every send attempt has a retryable outcome (429/502/503/504,
any 5xx, or a retryable transport error), `execute_with_retry` performs
exactly `max_retries + 1` sends and returns the last recorded retryable
error (with the generic `ServiceUnavailable` only as the `unwrap_or_else`
fallback for an absent error). -/
theorem C3_exhausted_retries (p : RetryPolicy) (svc : String)
    (mapError : Nat → String → Error) (backend : Nat → SendOutcome)
    (hretry : ∀ i, i ≤ p.max_retries →
      ((classifyAttempt mapError (backend i)).retryErr).isSome) :
    (executeWithRetry p svc (.ok ()) mapError backend).sends = p.max_retries + 1 ∧
    (executeWithRetry p svc (.ok ()) mapError backend).result =
      .error (((classifyAttempt mapError (backend p.max_retries)).retryErr).getD
        (genericUnavailable svc)) :=
  execLoop_all_retry p svc mapError backend p.max_retries 0 none (by omega)
    (fun i _ h2 => hretry i h2)

/-- A backend that answers every attempt with 503. -/
def always503 : Nat → SendOutcome := fun _ => .response 503 "svc down"

/-- A backend that answers every attempt with 404. -/
def always404 : Nat → SendOutcome := fun _ => .response 404 "missing"

/-- A representative error classifier: 404 to `NotFound`, 503 to
`ServiceUnavailable`, anything else to `HttpError`. -/
def exampleMapError : Nat → String → Error := fun status text =>
  if status = 404 then .notFound text
  else if status = 503 then .serviceUnavailable text
  else .httpError text

/-- Witness for C3: `max_retries = 3` against an always-503 backend gives
exactly 4 sends and a `ServiceUnavailable` error. -/
theorem C3_exhausted_retries_witness :
    (executeWithRetry RetryPolicy.new "vmapi" (.ok ()) exampleMapError always503).sends = 4 ∧
    (executeWithRetry RetryPolicy.new "vmapi" (.ok ()) exampleMapError always503).result =
      .error (.serviceUnavailable "svc down") := by
  have h := C3_exhausted_retries RetryPolicy.new "vmapi" exampleMapError always503
    (fun i _ => rfl)
  exact ⟨h.1, by rw [h.2]; rfl⟩

/-- C8: a non-retryable non-2xx status on the first attempt makes
`execute_with_retry` return the classifier's error after exactly one send,
with no retry and no backoff sleep. -/
theorem C8_no_retry_on_client_error (p : RetryPolicy) (svc : String)
    (mapError : Nat → String → Error) (backend : Nat → SendOutcome)
    (status : Nat) (text : String)
    (hresp : backend 0 = .response status text)
    (hfail : statusIsSuccess status = false)
    (hnoretry : shouldRetry status = false) :
    executeWithRetry p svc (.ok ()) mapError backend =
      { result := .error (mapError status text), sends := 1, sleeps := [] } := by
  show execLoop p svc (.ok ()) mapError backend (p.max_retries + 1) 0 none = _
  rw [execLoop_unfold, hresp]
  simp only [classifyAttempt, hfail, hnoretry, Bool.false_eq_true, if_false]

/-- Witness for C8: a 404 on the first attempt gives exactly 1 send and an
immediate `NotFound` error. -/
theorem C8_no_retry_on_client_error_witness :
    executeWithRetry RetryPolicy.new "vmapi" (.ok ()) exampleMapError always404 =
      { result := .error (.notFound "missing"), sends := 1, sleeps := [] } :=
  C8_no_retry_on_client_error RetryPolicy.new "vmapi" exampleMapError always404
    404 "missing" rfl rfl rfl

/-- `triton_core::services::DiscoveryStatus`
(src/crates/triton-core/src/services.rs).  `Instant`s are `Nat` time
stamps. -/
structure DiscoveryStatus where
  last_discovery_at : Option Nat
  last_success_at : Option Nat
  last_error : Option String
  discovered_services : Nat
  failed_services : List String
  cache_hits : Nat
  cache_misses : Nat
  deriving Repr, DecidableEq

/-- `DiscoveryStatus::new()`. -/
def DiscoveryStatus.new : DiscoveryStatus :=
  { last_discovery_at := none
    last_success_at := none
    last_error := none
    discovered_services := 0
    failed_services := []
    cache_hits := 0
    cache_misses := 0 }

/-- `DiscoveryStatus::with_success`: stamps both times, sets the count,
clears the error — and touches nothing else. -/
def DiscoveryStatus.withSuccess (st : DiscoveryStatus) (service_count : Nat)
    (now : Nat) : DiscoveryStatus :=
  { st with
    last_discovery_at := some now
    last_success_at := some now
    discovered_services := service_count
    last_error := none }

/-- `SapiDiscovery::record_success` (src/crates/triton-sapi/src/client.rs):
clears `last_error`, retains only `failed_services` entries different from
`service`, bumps `cache_misses`. -/
def sapiRecordSuccess (st : DiscoveryStatus) (service : String) (count : Nat)
    (now : Nat) : DiscoveryStatus :=
  { st with
    last_discovery_at := some now
    last_success_at := some now
    last_error := none
    discovered_services := count
    failed_services := st.failed_services.filter (fun failed => !(failed == service))
    cache_misses := st.cache_misses + 1 }

/-- `SapiDiscovery::record_error`: stamps the attempt time, sets
`last_error` only when an error value is present, and appends `service` to
`failed_services` unless already present. -/
def sapiRecordError (st : DiscoveryStatus) (service : String)
    (error : Option Error) (now : Nat) : DiscoveryStatus :=
  let st1 := { st with last_discovery_at := some now }
  let st2 :=
    match error with
    | some e => { st1 with last_error := some e.render }
    | none => st1
  if st2.failed_services.any (fun s => s == service) then st2
  else { st2 with failed_services := st2.failed_services ++ [service] }

/-- `ServiceDiscoveryProxy::record_success`: replaces the status by
`status.clone().with_success(count)`. -/
def proxyRecordSuccess (st : DiscoveryStatus) (count : Nat) (now : Nat) :
    DiscoveryStatus :=
  st.withSuccess count now

/-- `ServiceDiscoveryProxy::record_error`: sets `last_error` to the
rendered error, nothing else. -/
def proxyRecordError (st : DiscoveryStatus) (e : Error) : DiscoveryStatus :=
  { st with last_error := some e.render }

/-- `triton_core::services::ServiceDiscoveryProxy`, reduced to the state it
owns (the shared inner source is passed as an oracle where needed). -/
structure ServiceDiscoveryProxy where
  status : DiscoveryStatus
  service_name : String
  deriving Repr, DecidableEq

/-- `ServiceDiscoveryProxy::discover_service`: delegate to the inner
source, then record the outcome in the proxy's own status. -/
def proxyDiscoverService (p : ServiceDiscoveryProxy)
    (inner : String → Except Error (List String)) (name : String) (now : Nat) :
    Except Error (List String) × ServiceDiscoveryProxy :=
  match inner name with
  | .ok endpoints =>
      (.ok endpoints,
        { p with status := proxyRecordSuccess p.status endpoints.length now })
  | .error e => (.error e, { p with status := proxyRecordError p.status e })

/-- `ServiceDiscoveryProxy::discover_all_services`: forwards to the inner
source's `discover_service` for the proxy's configured name, recording
nothing. -/
def proxyDiscoverAllServices (p : ServiceDiscoveryProxy)
    (inner : String → Except Error (List String)) :
    Except Error (List String) × ServiceDiscoveryProxy :=
  (inner p.service_name, p)

/-- `ServiceDiscoveryProxy::clear_cache`: zeroes only the proxy's own
hit/miss counters. -/
def proxyClearCache (p : ServiceDiscoveryProxy) : ServiceDiscoveryProxy :=
  { p with status := { p.status with cache_hits := 0, cache_misses := 0 } }

/-- A status that already lists "vmapi" as failed. -/
def statusWithVmapiFailed : DiscoveryStatus :=
  { DiscoveryStatus.new with failed_services := ["vmapi"] }

/-- An inner discovery source that always succeeds with one endpoint. -/
def innerAlwaysOk : String → Except Error (List String) :=
  fun _ => .ok ["http://vmapi.local:80"]

/-- An inner discovery source that always fails. -/
def innerAlwaysErr : String → Except Error (List String) :=
  fun _ => .error (.notFound "no vmapi")

/-- C4: the claim asserts that BOTH status owners remove the service from
`failed_services` on success and append it on failure.  Refuted for the
proxy: a successful `discover_service` through a proxy whose status lists
"vmapi" as failed leaves "vmapi" in `failed_services`, and a failed one
never appends to `failed_services`. -/
theorem C4_counterexample :
    "vmapi" ∈
      ((proxyDiscoverService ⟨statusWithVmapiFailed, "vmapi"⟩ innerAlwaysOk
        "vmapi" 5).2).status.failed_services ∧
    ((proxyDiscoverService ⟨DiscoveryStatus.new, "vmapi"⟩ innerAlwaysErr
        "vmapi" 5).2).status.failed_services = [] := by
  constructor
  · simp [proxyDiscoverService, innerAlwaysOk, proxyRecordSuccess,
      DiscoveryStatus.withSuccess, statusWithVmapiFailed]
  · rfl

/-- C4 (amended): the claimed mutation discipline holds for the SAPI
engine's `record_success`/`record_error` (the latter sets `last_error`
when an error value is present); the proxy's recorders only clear or set
`last_error` (plus count/time stamps on success) and leave
`failed_services` unchanged in both directions. -/
theorem C4_status_mutation (st : DiscoveryStatus) (service : String)
    (count : Nat) (now : Nat) (e : Error) :
    (sapiRecordSuccess st service count now).last_error = none ∧
    service ∉ (sapiRecordSuccess st service count now).failed_services ∧
    (sapiRecordError st service (some e) now).last_error = some e.render ∧
    (sapiRecordError st service (some e) now).failed_services =
      (if service ∈ st.failed_services then st.failed_services
        else st.failed_services ++ [service]) ∧
    (proxyRecordSuccess st count now).last_error = none ∧
    (proxyRecordSuccess st count now).failed_services = st.failed_services ∧
    (proxyRecordError st e).last_error = some e.render ∧
    (proxyRecordError st e).failed_services = st.failed_services := by
  refine ⟨rfl, ?_, ?_, ?_, rfl, rfl, rfl, rfl⟩
  · simp [sapiRecordSuccess, List.mem_filter]
  · by_cases h : st.failed_services.any (fun s => s == service)
    · simp [sapiRecordError, h]
    · simp [sapiRecordError, h]
  · by_cases h : service ∈ st.failed_services
    · have hb : st.failed_services.any (fun s => s == service) = true := by
        rw [List.any_eq_true]
        exact ⟨service, h, beq_self_eq_true service⟩
      simp [sapiRecordError, hb, if_pos h]
    · have hb : ¬ st.failed_services.any (fun s => s == service) = true := by
        rw [List.any_eq_true]
        rintro ⟨x, hx, hxs⟩
        exact h ((eq_of_beq hxs) ▸ hx)
      simp [sapiRecordError, hb, if_neg h]

/-- ASCII lowercasing of one character (the service names this code
lowercases are ASCII, where Rust's `to_lowercase` agrees with this). -/
def charToLower (c : Char) : Char :=
  if 65 ≤ c.toNat ∧ c.toNat ≤ 90 then Char.ofNat (c.toNat + 32) else c

/-- `str::to_lowercase`, on ASCII data. -/
def strToLower (s : String) : String := ⟨s.data.map charToLower⟩

/-- `triton_core::types::TritonService`. -/
inductive TritonService where
  | vmapi | cnapi | napi | imgapi | papi | fwapi | sapi | ufds | amon | workflow
  deriving Repr, DecidableEq

/-- `TritonService::name`. -/
def TritonService.name : TritonService → String
  | .vmapi => "vmapi"
  | .cnapi => "cnapi"
  | .napi => "napi"
  | .imgapi => "imgapi"
  | .papi => "papi"
  | .fwapi => "fwapi"
  | .sapi => "sapi"
  | .ufds => "ufds"
  | .amon => "amon"
  | .workflow => "workflow"

/-- `<TritonService as FromStr>::from_str`: lower-cases the input, then
matches the known names. -/
def parseTritonService (s : String) : Except Error TritonService :=
  match strToLower s with
  | "vmapi" => .ok .vmapi
  | "cnapi" => .ok .cnapi
  | "napi" => .ok .napi
  | "imgapi" => .ok .imgapi
  | "papi" => .ok .papi
  | "fwapi" => .ok .fwapi
  | "sapi" => .ok .sapi
  | "ufds" => .ok .ufds
  | "amon" => .ok .amon
  | "workflow" => .ok .workflow
  | _ => .error (.invalidRequest ("Unknown service: " ++ s))

/-- `HashMap` lookup, on the association-list model of the map (keys are
unique, so first-match lookup is the map's lookup). -/
def mapLookup {α : Type} (m : List (String × α)) (k : String) : Option α :=
  match m with
  | [] => none
  | (k', v) :: rest => if k' == k then some v else mapLookup rest k

/-- `HashMap::insert`, replacing any previous binding of the key. -/
def mapInsert {α : Type} (m : List (String × α)) (k : String) (v : α) :
    List (String × α) :=
  (k, v) :: m.filter (fun p => !(p.1 == k))

/-- `CachedEntry` of src/crates/triton-sapi/src/client.rs. -/
structure CachedEntry where
  endpoints : List String
  fetched_at : Nat
  deriving Repr, DecidableEq

/-- `SapiDiscovery`, reduced to the state it owns.  The SAPI directory
client it queries is passed to each operation as an oracle
`sapi : Nat → Except Error (List String)` giving the outcome of the i-th
`discover_service_endpoints` call of that operation. -/
structure SapiDiscovery where
  cache : List (String × CachedEntry)
  status : DiscoveryStatus
  ttl : Nat
  retry_attempts : Nat
  fallback : List (String × List String)
  enabled : Bool
  deriving Repr, DecidableEq

/-- `SapiDiscovery::cache_entry_is_fresh`:
`entry.fetched_at.elapsed() <= self.ttl` (with `Instant::elapsed` as the
zero-saturating difference `now - fetched_at`). -/
def cacheEntryIsFresh (eng : SapiDiscovery) (entry : CachedEntry) (now : Nat) :
    Bool :=
  now - entry.fetched_at ≤ eng.ttl

/-- Aggregate outcome of a discovery operation: the returned value, the
engine's mutated cache and status, and the number of directory queries
(`discover_service_endpoints` calls) performed. -/
structure RefreshResult where
  result : Except Error (List String)
  cache : List (String × CachedEntry)
  status : DiscoveryStatus
  queries : Nat
  deriving Repr

/-- The `DiscoveryFailed` message synthesized when a refresh ends with no
recorded error. -/
def refreshFailedError (service : String) : Error :=
  .discoveryFailed ("Failed to discover endpoints for `" ++ service ++ "`")

/-- The code after `refresh_service`'s retry loop: record the failure in
the status, then return a non-empty fallback entry if one exists, else the
last error (or a synthesized `DiscoveryFailed` if none was recorded). -/
def refreshExhausted (eng : SapiDiscovery) (service : String)
    (lastError : Option Error) (now : Nat) : RefreshResult :=
  { result :=
      match mapLookup eng.fallback service with
      | some fb =>
          if fb.isEmpty then .error (lastError.getD (refreshFailedError service))
          else .ok fb
      | none => .error (lastError.getD (refreshFailedError service))
    cache := eng.cache
    status := sapiRecordError eng.status service lastError now
    queries := 0 }

/-- The `while attempt <= retry_attempts` loop of
`SapiDiscovery::refresh_service`, with fuel `retry_attempts + 1 - attempt`
(the loop always exits through the success return or the break, so the
fuel-0 branch mirrors the post-loop code and is never reached from
`refreshService`). -/
def refreshLoop (eng : SapiDiscovery) (service : String)
    (sapi : Nat → Except Error (List String)) (now : Nat) :
    Nat → Nat → Option Error → RefreshResult
  | 0, _, lastError => refreshExhausted eng service lastError now
  | fuel + 1, attempt, lastError =>
      if attempt ≤ eng.retry_attempts then
        match sapi attempt with
        | .ok endpoints =>
            { result := .ok endpoints
              cache := mapInsert eng.cache service ⟨endpoints, now⟩
              status := sapiRecordSuccess eng.status service endpoints.length now
              queries := 1 }
        | .error e =>
            if attempt + 1 > eng.retry_attempts then
              { refreshExhausted eng service (some e) now with queries := 1 }
            else
              let r := refreshLoop eng service sapi now fuel (attempt + 1) (some e)
              { r with queries := r.queries + 1 }
      else refreshExhausted eng service lastError now

/-- `SapiDiscovery::refresh_service`: parse the service name, then run the
retry loop. -/
def refreshService (eng : SapiDiscovery) (service : String)
    (sapi : Nat → Except Error (List String)) (now : Nat) : RefreshResult :=
  match parseTritonService service with
  | .error e =>
      { result := .error e, cache := eng.cache, status := eng.status, queries := 0 }
  | .ok _ => refreshLoop eng service sapi now (eng.retry_attempts + 1) 0 none

/-- The `DiscoveryFailed` error of the disabled-without-fallback path. -/
def discoveryDisabledError (service_name : String) : Error :=
  .discoveryFailed
    ("Service discovery disabled and no fallback for `" ++ service_name ++ "`")

/-- `<SapiDiscovery as ServiceDiscovery>::discover_service`. -/
def discoverService (eng : SapiDiscovery) (service_name : String)
    (sapi : Nat → Except Error (List String)) (now : Nat) : RefreshResult :=
  let service_key := strToLower service_name
  if !eng.enabled then
    match mapLookup eng.fallback service_key with
    | some fb =>
        if fb.isEmpty then
          { result := .error (discoveryDisabledError service_name),
            cache := eng.cache, status := eng.status, queries := 0 }
        else
          { result := .ok fb, cache := eng.cache, status := eng.status, queries := 0 }
    | none =>
        { result := .error (discoveryDisabledError service_name),
          cache := eng.cache, status := eng.status, queries := 0 }
  else
    match mapLookup eng.cache service_key with
    | some entry =>
        if cacheEntryIsFresh eng entry now then
          { result := .ok entry.endpoints
            cache := eng.cache
            status := { eng.status with cache_hits := eng.status.cache_hits + 1 }
            queries := 0 }
        else refreshService eng service_key sapi now
    | none => refreshService eng service_key sapi now

/-- `<SapiDiscovery as ServiceDiscovery>::clear_cache`: empty the cache
map, zero the hit/miss counters. -/
def clearCache (eng : SapiDiscovery) : SapiDiscovery :=
  { eng with
    cache := []
    status := { eng.status with cache_hits := 0, cache_misses := 0 } }

/-- `sapiRecordError` sets `last_error` to the rendered error whenever an
error value is present. -/
theorem sapiRecordError_last_error_some (st : DiscoveryStatus) (service : String)
    (e : Error) (now : Nat) :
    (sapiRecordError st service (some e) now).last_error = some e.render := by
  by_cases h : st.failed_services.any (fun s => s == service) <;>
    simp [sapiRecordError, h]

/-- `sapiRecordError`'s effect on `failed_services`, as the code's
membership test states it. -/
theorem sapiRecordError_failed_services (st : DiscoveryStatus) (service : String)
    (err : Option Error) (now : Nat) :
    (sapiRecordError st service err now).failed_services =
      (if st.failed_services.any (fun s => s == service) then st.failed_services
        else st.failed_services ++ [service]) := by
  cases err with
  | none =>
    by_cases h : st.failed_services.any (fun s => s == service) <;>
      simp [sapiRecordError, h]
  | some e =>
    by_cases h : st.failed_services.any (fun s => s == service) <;>
      simp [sapiRecordError, h]

/-- After `sapiRecordError`, the service is in `failed_services`. -/
theorem sapiRecordError_mem_failed (st : DiscoveryStatus) (service : String)
    (err : Option Error) (now : Nat) :
    service ∈ (sapiRecordError st service err now).failed_services := by
  rw [sapiRecordError_failed_services]
  by_cases hb : st.failed_services.any (fun s => s == service)
  · rw [if_pos hb]
    rw [List.any_eq_true] at hb
    obtain ⟨x, hx, hxs⟩ := hb
    exact (eq_of_beq hxs) ▸ hx
  · rw [if_neg hb]
    exact List.mem_append_right st.failed_services (List.mem_singleton.mpr rfl)

/-- One-step unfolding of `refreshLoop`, leaving the recursive occurrence
untouched. -/
theorem refreshLoop_unfold (eng : SapiDiscovery) (service : String)
    (sapi : Nat → Except Error (List String)) (now : Nat)
    (fuel attempt : Nat) (lastError : Option Error) :
    refreshLoop eng service sapi now (fuel + 1) attempt lastError =
      (if attempt ≤ eng.retry_attempts then
        match sapi attempt with
        | .ok endpoints =>
            { result := .ok endpoints
              cache := mapInsert eng.cache service ⟨endpoints, now⟩
              status := sapiRecordSuccess eng.status service endpoints.length now
              queries := 1 }
        | .error e =>
            if attempt + 1 > eng.retry_attempts then
              { refreshExhausted eng service (some e) now with queries := 1 }
            else
              { refreshLoop eng service sapi now fuel (attempt + 1) (some e) with
                queries :=
                  (refreshLoop eng service sapi now fuel (attempt + 1) (some e)).queries
                    + 1 }
      else refreshExhausted eng service lastError now) := rfl

/-- If every attempt fails, the retry loop runs through all its attempts
and ends in the post-loop failure path, carrying the error of the last
attempt and having issued one query per attempt. -/
theorem refreshLoop_all_fail (eng : SapiDiscovery) (service : String)
    (sapi : Nat → Except Error (List String)) (now : Nat)
    (fuel attempt : Nat) (lastError : Option Error) (e_last : Error)
    (hfuel : attempt + fuel = eng.retry_attempts)
    (hfail : ∀ i, attempt ≤ i → i ≤ eng.retry_attempts → ∃ e, sapi i = .error e)
    (hlast : sapi eng.retry_attempts = .error e_last) :
    refreshLoop eng service sapi now (fuel + 1) attempt lastError =
      { refreshExhausted eng service (some e_last) now with queries := fuel + 1 } := by
  induction fuel generalizing attempt lastError with
  | zero =>
    have hatt : attempt = eng.retry_attempts := by omega
    subst hatt
    rw [refreshLoop_unfold, if_pos (le_refl _), hlast]
    dsimp only
    rw [if_pos (by omega)]
  | succ fuel ih =>
    obtain ⟨e, he⟩ := hfail attempt le_rfl (by omega)
    rw [refreshLoop_unfold, if_pos (by omega), he]
    dsimp only
    rw [if_neg (by omega),
      ih (attempt + 1) (some e) (by omega) (fun i h1 h2 => hfail i (by omega) h2)]

/-- A refresh loop entered at attempt 0 issues at least one directory
query. -/
theorem refreshLoop_queries_pos (eng : SapiDiscovery) (service : String)
    (sapi : Nat → Except Error (List String)) (now : Nat) (fuel : Nat)
    (lastError : Option Error) :
    1 ≤ (refreshLoop eng service sapi now (fuel + 1) 0 lastError).queries := by
  rw [refreshLoop_unfold, if_pos (Nat.zero_le _)]
  cases hs : sapi 0 with
  | ok es => exact le_refl 1
  | error e =>
    dsimp only
    by_cases h : 0 + 1 > eng.retry_attempts
    · rw [if_pos h]
    · rw [if_neg h]
      exact Nat.le_add_left 1 _

/-- C9: `clear_cache` empties the cache map, zeroes the hit/miss counters,
leaves every other field of the engine and its status unchanged, and is
idempotent. -/
theorem C9_clear_cache (eng : SapiDiscovery) :
    (clearCache eng).cache = [] ∧
    (clearCache eng).status.cache_hits = 0 ∧
    (clearCache eng).status.cache_misses = 0 ∧
    (clearCache eng).status.last_error = eng.status.last_error ∧
    (clearCache eng).status.failed_services = eng.status.failed_services ∧
    (clearCache eng).status.last_discovery_at = eng.status.last_discovery_at ∧
    (clearCache eng).status.last_success_at = eng.status.last_success_at ∧
    (clearCache eng).status.discovered_services = eng.status.discovered_services ∧
    (clearCache eng).ttl = eng.ttl ∧
    (clearCache eng).retry_attempts = eng.retry_attempts ∧
    (clearCache eng).fallback = eng.fallback ∧
    (clearCache eng).enabled = eng.enabled ∧
    clearCache (clearCache eng) = clearCache eng :=
  ⟨rfl, rfl, rfl, rfl, rfl, rfl, rfl, rfl, rfl, rfl, rfl, rfl, rfl⟩

/-- C6: with discovery disabled, `discover_service` performs no directory
query and leaves the state untouched; it returns the fallback entry of the
lower-cased key when that entry exists and is non-empty, and the
`DiscoveryFailed` error otherwise. -/
theorem C6_disabled_fallback_only (eng : SapiDiscovery) (service_name : String)
    (sapi : Nat → Except Error (List String)) (now : Nat)
    (hdis : eng.enabled = false) :
    (discoverService eng service_name sapi now).queries = 0 ∧
    (discoverService eng service_name sapi now).cache = eng.cache ∧
    (discoverService eng service_name sapi now).status = eng.status ∧
    (discoverService eng service_name sapi now).result =
      (match mapLookup eng.fallback (strToLower service_name) with
        | some fb =>
            if fb.isEmpty then .error (discoveryDisabledError service_name)
            else .ok fb
        | none => .error (discoveryDisabledError service_name)) := by
  cases hfb : mapLookup eng.fallback (strToLower service_name) with
  | some fb =>
    by_cases he : fb.isEmpty <;>
      simp [discoverService, hdis, hfb, he]
  | none => simp [discoverService, hdis, hfb]

/-- An engine with discovery disabled and one static fallback entry. -/
def disabledEngine : SapiDiscovery :=
  { cache := []
    status := DiscoveryStatus.new
    ttl := 1
    retry_attempts := 0
    fallback := [("vmapi", ["http://fallback:80"])]
    enabled := false }

/-- Witness for C6: the disabled engine serves "vmapi" from its fallback
with no directory query. -/
theorem C6_disabled_fallback_only_witness :
    disabledEngine.enabled = false ∧
    (discoverService disabledEngine "vmapi" (fun _ => .error (.notFound "x"))
      0).queries = 0 ∧
    (discoverService disabledEngine "vmapi" (fun _ => .error (.notFound "x"))
      0).result = .ok ["http://fallback:80"] := by
  have h := C6_disabled_fallback_only disabledEngine "vmapi"
    (fun _ => .error (.notFound "x")) 0 rfl
  refine ⟨rfl, h.1, ?_⟩
  rw [h.2.2.2]
  rfl

/-- C7: when every refresh attempt fails, the engine records the failure
(`last_error` set to the last attempt's rendered error, service in
`failed_services`), then returns a non-empty fallback entry if one exists
and otherwise propagates the last error; with no fallback and no recorded
error the post-loop path synthesizes `DiscoveryFailed`. -/
theorem C7_refresh_exhausted (eng : SapiDiscovery) (service : String)
    (sapi : Nat → Except Error (List String)) (now : Nat)
    (t : TritonService) (e_last : Error)
    (hparse : parseTritonService service = .ok t)
    (hfail : ∀ i, i ≤ eng.retry_attempts → ∃ e, sapi i = .error e)
    (hlast : sapi eng.retry_attempts = .error e_last) :
    (refreshService eng service sapi now).result =
      (match mapLookup eng.fallback service with
        | some fb => if fb.isEmpty then .error e_last else .ok fb
        | none => .error e_last) ∧
    (refreshService eng service sapi now).status =
      sapiRecordError eng.status service (some e_last) now ∧
    (refreshService eng service sapi now).status.last_error = some e_last.render ∧
    service ∈ (refreshService eng service sapi now).status.failed_services ∧
    (mapLookup eng.fallback service = none →
      (refreshExhausted eng service none now).result =
        .error (refreshFailedError service)) := by
  have hrs : refreshService eng service sapi now =
      { refreshExhausted eng service (some e_last) now with
        queries := eng.retry_attempts + 1 } := by
    unfold refreshService
    rw [hparse]
    exact refreshLoop_all_fail eng service sapi now eng.retry_attempts 0 none e_last
      (by omega) (fun i _ h2 => hfail i h2) hlast
  rw [hrs]
  refine ⟨?_, rfl, ?_, ?_, ?_⟩
  · show (refreshExhausted eng service (some e_last) now).result = _
    unfold refreshExhausted
    cases mapLookup eng.fallback service with
    | some fb => by_cases he : fb.isEmpty <;> simp [he]
    | none => simp
  · exact sapiRecordError_last_error_some eng.status service e_last now
  · exact sapiRecordError_mem_failed eng.status service (some e_last) now
  · intro hnone
    unfold refreshExhausted
    rw [hnone]
    rfl

/-- An enabled engine with no usable cache, no retries left beyond the
first attempt, and a fallback entry for "vmapi". -/
def failingEngine : SapiDiscovery :=
  { cache := []
    status := DiscoveryStatus.new
    ttl := 1
    retry_attempts := 0
    fallback := [("vmapi", ["http://fallback:80"])]
    enabled := true }

/-- A directory oracle whose every query fails. -/
def sapiAlwaysDown : Nat → Except Error (List String) :=
  fun _ => .error (.serviceUnavailable "down")

/-- Witness for C7: after exhausting its attempts, the failing engine
serves "vmapi" from the fallback while its status records the failure. -/
theorem C7_refresh_exhausted_witness :
    (refreshService failingEngine "vmapi" sapiAlwaysDown 7).result =
      .ok ["http://fallback:80"] ∧
    (refreshService failingEngine "vmapi" sapiAlwaysDown 7).status.last_error =
      some (Error.serviceUnavailable "down").render ∧
    "vmapi" ∈ (refreshService failingEngine "vmapi" sapiAlwaysDown
      7).status.failed_services := by
  have h := C7_refresh_exhausted failingEngine "vmapi" sapiAlwaysDown 7 .vmapi
    (.serviceUnavailable "down") rfl (fun i _ => ⟨_, rfl⟩) rfl
  exact ⟨by rw [h.1]; rfl, h.2.2.1, h.2.2.2.1⟩

/-- C5: for an enabled engine and a cached lower-cased key, a fresh entry
(`now - fetched_at ≤ ttl`) is served as a cache hit — `cache_hits`
incremented, the cached endpoints returned, no directory query — while a
stale entry (`now - fetched_at > ttl`) is ignored and the call refreshes,
issuing at least one directory query when the name parses. -/
theorem C5_cache_freshness (eng : SapiDiscovery) (service_name : String)
    (sapi : Nat → Except Error (List String)) (now : Nat) (entry : CachedEntry)
    (hen : eng.enabled = true)
    (hit : mapLookup eng.cache (strToLower service_name) = some entry) :
    (now - entry.fetched_at ≤ eng.ttl →
      discoverService eng service_name sapi now =
        { result := .ok entry.endpoints
          cache := eng.cache
          status := { eng.status with cache_hits := eng.status.cache_hits + 1 }
          queries := 0 }) ∧
    (eng.ttl < now - entry.fetched_at →
      discoverService eng service_name sapi now =
        refreshService eng (strToLower service_name) sapi now ∧
      (∀ t, parseTritonService (strToLower service_name) = .ok t →
        1 ≤ (discoverService eng service_name sapi now).queries)) := by
  constructor
  · intro hfresh
    have hf : cacheEntryIsFresh eng entry now = true := decide_eq_true hfresh
    simp [discoverService, hen, hit, hf]
  · intro hstale
    have hf : cacheEntryIsFresh eng entry now = false := by
      simp only [cacheEntryIsFresh, decide_eq_false_iff_not]
      omega
    have heq : discoverService eng service_name sapi now =
        refreshService eng (strToLower service_name) sapi now := by
      simp [discoverService, hen, hit, hf]
    refine ⟨heq, ?_⟩
    intro t hpt
    rw [heq]
    unfold refreshService
    rw [hpt]
    exact refreshLoop_queries_pos eng (strToLower service_name) sapi now
      eng.retry_attempts none

/-- An enabled engine holding a cache entry for "vmapi" fetched at time
100, with a 300-unit TTL. -/
def cachedEngine : SapiDiscovery :=
  { cache := [("vmapi", ⟨["http://vmapi.local:80"], 100⟩)]
    status := DiscoveryStatus.new
    ttl := 300
    retry_attempts := 0
    fallback := []
    enabled := true }

/-- Witness for C5: a lookup 1 unit after the fetch is a hit with no
query; a lookup 301 units after the fetch refreshes and queries the
directory. -/
theorem C5_cache_freshness_witness :
    (discoverService cachedEngine "vmapi" sapiAlwaysDown 101).result =
      .ok ["http://vmapi.local:80"] ∧
    (discoverService cachedEngine "vmapi" sapiAlwaysDown 101).status.cache_hits = 1 ∧
    (discoverService cachedEngine "vmapi" sapiAlwaysDown 101).queries = 0 ∧
    discoverService cachedEngine "vmapi" sapiAlwaysDown 401 =
      refreshService cachedEngine "vmapi" sapiAlwaysDown 401 ∧
    1 ≤ (discoverService cachedEngine "vmapi" sapiAlwaysDown 401).queries := by
  have h1 := (C5_cache_freshness cachedEngine "vmapi" sapiAlwaysDown 101
    ⟨["http://vmapi.local:80"], 100⟩ rfl rfl).1 (by decide)
  have h2 := (C5_cache_freshness cachedEngine "vmapi" sapiAlwaysDown 401
    ⟨["http://vmapi.local:80"], 100⟩ rfl rfl).2 (by decide)
  exact ⟨by rw [h1], by rw [h1]; rfl, by rw [h1], h2.1, h2.2 .vmapi rfl⟩

/-- C10: `discover_all_services` on the proxy forwards to the inner
source's `discover_service` for the proxy's configured service name and
leaves the proxy's own status (indeed its whole state) unchanged on every
outcome, whereas `discover_service` on the proxy records success or error
in the proxy's status on every outcome. -/
theorem C10_discover_all_frame (p : ServiceDiscoveryProxy)
    (inner : String → Except Error (List String)) (name : String) (now : Nat) :
    (proxyDiscoverAllServices p inner).1 = inner p.service_name ∧
    (proxyDiscoverAllServices p inner).2 = p ∧
    (proxyDiscoverAllServices p inner).2.status = p.status ∧
    (proxyDiscoverService p inner name now).2.status =
      (match inner name with
        | .ok endpoints => proxyRecordSuccess p.status endpoints.length now
        | .error e => proxyRecordError p.status e) := by
  refine ⟨rfl, rfl, rfl, ?_⟩
  cases h : inner name <;> simp [proxyDiscoverService, h]

end Triton
